import Mathlib

/-!
Verification development for simple-battery-voltage-alarm
(`simplevoltagealarm.cpp`).

The C++ program polls a battery's electrical state every 5 seconds, raises an
audible alarm when the state leaves a configured envelope, and accumulates
per-session energy statistics that are flushed into reports.

This file gives a shallow embedding of the core data model and logic:

* `power_reading`, `power_reading.power` embed the `power_reading` struct and
  its `power()` member (C++ lines 91-119).  C++ `float` fields are modelled as
  exact rationals (`ℚ`), `time_t` as `Int`.
* `readE` embeds the effective-voltage computation inside
  `power_status_reader::read` (lines 251-253); `power_status_reader.read`
  assembles the returned reading (line 258) from the raw device-file values,
  which are taken as parameters.
* `creading_outofrange`, `actuald` and `alarmsound` embed the alarm
  evaluation at the top of each `checkloop` iteration (lines 479-489).
* `LoopState`, `checkstep` and `checkrun` embed the body of `checkloop`
  (lines 462-609) as an explicit state-passing step function: `checkstep`
  performs one loop iteration (ingest one reading, possibly flush), `checkrun`
  folds it over a list of `(tagexit, reading)` inputs, stopping when the loop
  returns.  The integration of the running sums (lines 497-502) is named
  `integWh`/`integmAh`/`integrWh`, the flush condition (lines 506-509) is
  `flushcond`, the statistics block (lines 511-589) is `flushreport` and
  `mkreport`, the manual-switch trim loop (lines 512-519) is `debounce`, and
  the clearing of buffer and sums (lines 591-594) is `clearedstate`.
* Report fields that the C++ code leaves uninitialised outside their guard
  (`dcapacity`, `rW`, `esfull`) are modelled as `Option` values that are
  `none` exactly when the guard is false.
-/

namespace SBVA

/-- One battery sample, mirroring the C++ `power_reading` struct
(lines 91-110): acquisition time, charge-state flags, terminal voltage,
effective (open-circuit) voltage `E`, signed current (positive = charging
direction), remaining capacity percent (-1 if unknown), and the
out-of-range tag set later by the check loop. -/
structure power_reading where
  time : Int
  charging : Bool
  full : Bool
  voltage : ℚ
  E : ℚ
  current : ℚ
  capacity : Int
  outofrange : Bool
deriving DecidableEq

/-- `power_reading::power()` (lines 114-119): absorbed power of the battery,
`voltage * current` when `current ≥ 0`, else `E * current`. -/
def power_reading.power (r : power_reading) : ℚ :=
  if r.current ≥ 0 then r.voltage * r.current else r.E * r.current

/-- Default reading (the C++ default constructor, line 108, taken with
zero-initialised fields and `capacity = -1` as the unknown sentinel); used as
the default for list lookups that the C++ code performs only on sufficiently
long vectors. -/
def rdflt : power_reading :=
  { time := 0, charging := false, full := false, voltage := 0, E := 0,
    current := 0, capacity := -1, outofrange := false }

instance : Inhabited power_reading := ⟨rdflt⟩

/-- The `poweralarmconfig` struct (lines 269-280): manual-switch mode flag,
internal resistance, and the configured envelope. -/
structure poweralarmconfig where
  manualswitch : Bool
  ir : ℚ
  minvoltage : ℚ
  maxvoltage : ℚ
  maxpower : ℚ
deriving DecidableEq

/-- Effective-voltage computation inside `power_status_reader::read`
(lines 251-253): `e = u` under manual switch while charging, otherwise
`e = u + (-i * ir)`. -/
def readE (manualswitch charging : Bool) (u i ir : ℚ) : ℚ :=
  if manualswitch && charging then u else u + (-i * ir)

/-- `power_status_reader::read` (lines 236-259) as a pure function of the
values read from the device files (status-derived `charging`/`full` flags,
raw voltage `u`, raw current `i`, capacity file value `cp`, clock `t`).
Capacity is read only in automatic mode (lines 255-256). -/
def power_status_reader.read (manualswitch : Bool) (ir : ℚ)
    (charging full : Bool) (u i : ℚ) (cp t : Int) : power_reading :=
  { time := t, charging := charging, full := full, voltage := u,
    E := readE manualswitch charging u i ir, current := i,
    capacity := if manualswitch then -1 else cp, outofrange := false }

/-- Out-of-range tag computed by `checkloop` (lines 479-482): voltage below
the floor, or effective voltage above the ceiling, or voltage above the
design maximum `maxvd`, or absolute power above the power ceiling. -/
def creading_outofrange (cfg : poweralarmconfig) (maxvd : ℚ)
    (r : power_reading) : Bool :=
  decide (r.voltage < cfg.minvoltage) || decide (r.E > cfg.maxvoltage) ||
  decide (r.voltage > maxvd) || decide (|r.power| > cfg.maxpower)

/-- A raw reading with its `outofrange` tag filled in, as done by the
assignment at lines 479-482. -/
def tagreading (cfg : poweralarmconfig) (maxvd : ℚ)
    (r : power_reading) : power_reading :=
  { r with outofrange := creading_outofrange cfg maxvd r }

/-- The `actuald` flag of line 484: the reading is taken to be actually
discharging when `!charging` holds, or when, in automatic mode, the cell
current is negative. -/
def actuald (cfg : poweralarmconfig) (r : power_reading) : Bool :=
  !r.charging || (!cfg.manualswitch && decide (r.current < 0))

/-- The alarm condition of lines 483-489: the bell is emitted exactly when
the (tagged) reading is out of range and moreover a directionally relevant
breach holds: low voltage while actually discharging, or the design-maximum
voltage breach, or high effective voltage while charging, or the power
breach. -/
def alarmsound (cfg : poweralarmconfig) (maxvd : ℚ) (r : power_reading) : Bool :=
  r.outofrange &&
    ((actuald cfg r && decide (r.voltage < cfg.minvoltage)) ||
     decide (r.voltage > maxvd) ||
     (r.charging && decide (r.E > cfg.maxvoltage)) ||
     decide (|r.power| > cfg.maxpower))

/-- `check_interval` (line 463): 5 seconds. -/
def check_interval : Int := 5

/-- The elapsed-time computation of lines 493-494: `difftime` between the new
reading and the last buffered one, clamped to `check_interval * 5` (the
sleep-gap heuristic). -/
def clampdt (tlast tnow : Int) : Int :=
  let d := tnow - tlast
  if d > check_interval * 5 then check_interval * 5 else d

/-- Mutable state of `checkloop` across iterations (lines 468-474): the
readings buffer, peak power, running energy/charge/loss sums, the
out-of-range count `otimes`, the first-iteration flag and the previous
reading's charging status `pcharging`. -/
structure LoopState where
  readings : List power_reading
  maxW : ℚ
  Wh : ℚ
  mAh : ℚ
  rWh : ℚ
  otimes : Int
  first : Bool
  pcharging : Bool
deriving DecidableEq

/-- Initial `checkloop` state: empty buffer, zero sums, first-iteration flag
set.  (`pcharging` is uninitialised in the C++ code and never read before its
first assignment; it is fixed to `false` here.) -/
def initState : LoopState :=
  { readings := [], maxW := 0, Wh := 0, mAh := 0, rWh := 0, otimes := 0,
    first := true, pcharging := false }

/-- The per-iteration tail of `checkloop` (lines 601-607): update the peak
power with the current reading, bump the out-of-range count, append the
reading to the buffer and remember its charging status. -/
def pushreading (st : LoopState) (c : power_reading) : LoopState :=
  { st with
    maxW := if |c.power| > |st.maxW| then c.power else st.maxW,
    otimes := st.otimes + (if c.outofrange then 1 else 0),
    readings := st.readings ++ [c],
    pcharging := c.charging }

/-- One application of the debounce pop (body of the loop at lines 514-519):
if the last buffered reading's voltage differs from the reference voltage
`p15v` by at least 0.1 V, drop it and decrement the out-of-range count when
it had been counted. -/
def poplast (p15v : ℚ) : List power_reading × Int → List power_reading × Int
  | (rs, ot) =>
    match rs.getLast? with
    | none => (rs, ot)
    | some lst =>
      if |lst.voltage - p15v| ≥ 1/10 then
        (rs.dropLast, ot - (if lst.outofrange then 1 else 0))
      else (rs, ot)

/-- The manual-switch debounce correction (lines 512-519): the reference
reading `p15` is fetched once at index `size - 2 - 1`, then the pop test runs
twice against the (current) last element. -/
def debounce (rs : List power_reading) (ot : Int) : List power_reading × Int :=
  let p15 := rs.getD (rs.length - 3) rdflt
  poplast p15.voltage (poplast p15.voltage (rs, ot))

/-- Truncation toward zero, the semantics of the C++ `(int)` conversion
applied to the float expression at line 523. -/
def ratTrunc (q : ℚ) : Int := if q < 0 then -⌊-q⌋ else ⌊q⌋

/-- A flushed session report (the statistics block, lines 522-565), carrying
the (possibly debounce-trimmed) buffer it was computed from and the derived
fields.  `dcapacity`, `rW` and `esfull` are `none` exactly when the C++ code
leaves the corresponding local uninitialised (guards at lines 526, 532 and
535). -/
structure SessionReport where
  readings : List power_reading
  pcharging : Bool
  span : Int
  poutrange : Int
  dE : ℚ
  dcapacity : Option Int
  W : ℚ
  rW : Option ℚ
  esfull : Option (ℚ × ℚ)
  maxW : ℚ
  Wh : ℚ
  mAh : ℚ
  rWh : ℚ
deriving DecidableEq

/-- The statistics computation of lines 522-565, taken over the (trimmed)
buffer `rs`, out-of-range count `ot`, session polarity `pch` and the running
sums.  `esfull` follows line 535: automatic mode and `dcapacity ≥ 5` only,
extrapolating from `CWh = Wh - rWh` when the session charged, else from `Wh`
(lines 536-540), and from `mAh` for the mAh figure. -/
def mkreport (cfg : poweralarmconfig) (rs : List power_reading) (ot : Int)
    (pch : Bool) (maxW Wh mAh rWh : ℚ) : SessionReport :=
  let frst := rs.headD rdflt
  let lst := rs.getLastD rdflt
  let span : Int := lst.time - frst.time
  let dcap : Option Int :=
    if cfg.manualswitch then none else some (lst.capacity - frst.capacity)
  let esfull : Option (ℚ × ℚ) :=
    match dcap with
    | none => none
    | some d =>
      if d ≥ 5 then
        some ((if pch then Wh - rWh else Wh) * 100 / (d : ℚ),
              mAh * 100 / (d : ℚ))
      else none
  { readings := rs, pcharging := pch, span := span,
    poutrange := ratTrunc ((ot : ℚ) / (rs.length : ℚ) * 100),
    dE := lst.E - frst.E, dcapacity := dcap,
    W := Wh * 3600 / (span : ℚ),
    rW := if !cfg.manualswitch || !pch then some (rWh * 3600 / (span : ℚ))
          else none,
    esfull := esfull, maxW := maxW, Wh := Wh, mAh := mAh, rWh := rWh }

/-- Line 497: `Wh += readings.back().power() * dtime/3600`. -/
def integWh (st : LoopState) (lastr : power_reading) (dtime : Int) : ℚ :=
  st.Wh + lastr.power * (dtime : ℚ) / 3600

/-- Line 498: `mAh += readings.back().current * 1000 * dtime/3600`. -/
def integmAh (st : LoopState) (lastr : power_reading) (dtime : Int) : ℚ :=
  st.mAh + lastr.current * 1000 * (dtime : ℚ) / 3600

/-- Lines 500-502: the resistive-loss sum accumulates
`|(back.E - back.voltage) * back.current| * dtime/3600`, but only in
automatic mode or while the previous status was discharging. -/
def integrWh (cfg : poweralarmconfig) (st : LoopState) (lastr : power_reading)
    (dtime : Int) : ℚ :=
  if !cfg.manualswitch || !st.pcharging then
    st.rWh + |(lastr.E - lastr.voltage) * lastr.current| * (dtime : ℚ) / 3600
  else st.rWh

/-- The flush condition of lines 506-509: buffer at the 0x20000-record cap,
or charge-state flip against `pcharging`, or the elapsed-time clamp fired
(`dtime == check_interval * 5`), or the external exit flag. -/
def flushcond (cfg : poweralarmconfig) (maxvd : ℚ) (te : Bool)
    (raw : power_reading) (st : LoopState) (lastr : power_reading) : Bool :=
  decide (st.readings.length ≥ 0x20000) ||
  ((tagreading cfg maxvd raw).charging != st.pcharging) ||
  decide (clampdt lastr.time (tagreading cfg maxvd raw).time =
          check_interval * 5) ||
  te

/-- The statistics part of the flush (lines 511-589): only a buffer of at
least 5 readings produces a report, after the manual-switch debounce trim. -/
def flushreport (cfg : poweralarmconfig) (st : LoopState)
    (Wh1 mAh1 rWh1 : ℚ) : Option SessionReport :=
  if st.readings.length ≥ 5 then
    if cfg.manualswitch then
      some (mkreport cfg (debounce st.readings st.otimes).1
        (debounce st.readings st.otimes).2 st.pcharging st.maxW Wh1 mAh1 rWh1)
    else
      some (mkreport cfg st.readings st.otimes st.pcharging st.maxW
        Wh1 mAh1 rWh1)
  else none

/-- Lines 591-594: the buffer is cleared and every running sum reset to zero
(`pcharging` and the first-iteration flag are untouched). -/
def clearedstate (st : LoopState) : LoopState :=
  { readings := [], maxW := 0, Wh := 0, mAh := 0, rWh := 0, otimes := 0,
    first := false, pcharging := st.pcharging }

/-- Result of one `checkloop` iteration: the successor state, the report
flushed this iteration (if any), whether the bell was emitted, whether the
flush branch (lines 510-596) ran, and whether the loop returned (line 595). -/
structure StepResult where
  state : LoopState
  report : Option SessionReport
  alarm : Bool
  flushed : Bool
  exited : Bool
deriving DecidableEq

/-- One iteration of the `while` loop in `checkloop` (lines 475-608), for a
raw reading `raw` just produced by `read()` and the current value of the
`tagexit` flag `te`.  Tags the reading (lines 479-482), evaluates the alarm
(lines 483-489), then -- unless this is the first iteration -- integrates the
energy sums over the clamped elapsed time (lines 492-502), checks the four
flush conditions (lines 506-509); on a flush it computes the report
(lines 511-589), clears the buffer and sums (lines 591-594) and returns when
`te` is set (line 595); finally the reading is appended (lines 599-607). -/
def checkstep (cfg : poweralarmconfig) (maxvd : ℚ) (te : Bool)
    (raw : power_reading) (st : LoopState) : StepResult :=
  let c := tagreading cfg maxvd raw
  let alarm := alarmsound cfg maxvd c
  if st.first then
    ⟨pushreading { st with first := false } c, none, alarm, false, false⟩
  else
    match st.readings.getLast? with
    | none => ⟨pushreading st c, none, alarm, false, false⟩
    | some lastr =>
      let dtime := clampdt lastr.time c.time
      if flushcond cfg maxvd te raw st lastr then
        let rep := flushreport cfg st (integWh st lastr dtime)
          (integmAh st lastr dtime) (integrWh cfg st lastr dtime)
        if te then
          ⟨clearedstate st, rep, alarm, true, true⟩
        else
          ⟨pushreading (clearedstate st) c, rep, alarm, true, false⟩
      else
        ⟨pushreading
          { st with Wh := integWh st lastr dtime,
                    mAh := integmAh st lastr dtime,
                    rWh := integrWh cfg st lastr dtime } c,
         none, alarm, false, false⟩

/-- Fold `checkstep` over a list of `(tagexit, raw reading)` inputs, stopping
when the loop returns; yields the final state and the reports flushed along
the way, in order. -/
def checkrun (cfg : poweralarmconfig) (maxvd : ℚ) :
    List (Bool × power_reading) → LoopState → LoopState × List SessionReport
  | [], st => (st, [])
  | (te, raw) :: rest, st =>
    let r := checkstep cfg maxvd te raw st
    if r.exited then (r.state, r.report.toList)
    else
      let nxt := checkrun cfg maxvd rest r.state
      (nxt.1, r.report.toList ++ nxt.2)


/-- The hypothesis shared by the statement of claim C2: the reading's only
out-of-range cause is the low-voltage breach (`voltage < min_voltage`), all
three other envelope conditions of lines 479-482 holding. -/
def onlyLowVoltage (cfg : poweralarmconfig) (maxvd : ℚ) (r : power_reading) : Prop :=
  r.voltage < cfg.minvoltage ∧ ¬ (r.E > cfg.maxvoltage) ∧
  ¬ (r.voltage > maxvd) ∧ ¬ (|r.power| > cfg.maxpower)

/-- Modelled from the spec (§4.1): "actually discharging" as the spec words
it -- `!charging` in automatic mode, or, in manual-switch mode,
`charging == false` combined with negative current.  Kept separate from the
source-derived `actuald` so the two can be compared. -/
def spec_actually_discharging (cfg : poweralarmconfig) (r : power_reading) : Bool :=
  if cfg.manualswitch then !r.charging && decide (r.current < 0) else !r.charging

/-- Modelled from the spec (§3): the spec words the internal-resistance
correction as `E = voltage − (−current × internal_resistance)`, applied
whenever not (manual-switch mode and charging).  Kept separate from the
source-derived `readE` so the two can be compared. -/
def spec_effective_voltage (manualswitch charging : Bool) (u i ir : ℚ) : ℚ :=
  if manualswitch && charging then u else u - (-i * ir)

/-- Shorthand constructor for concrete readings (the `full` flag false, the
`outofrange` tag unset, as produced by `read()`). -/
def mkr (t : Int) (ch : Bool) (v e i : ℚ) (cp : Int) : power_reading :=
  { time := t, charging := ch, full := false, voltage := v, E := e,
    current := i, capacity := cp, outofrange := false }

/-- Automatic-mode sample configuration for the concrete evaluations. -/
def cfgA : poweralarmconfig :=
  { manualswitch := false, ir := 1/10, minvoltage := 3, maxvoltage := 5,
    maxpower := 10000 }

/-- Automatic-mode configuration with the spec's default-like envelope
(min 3.8 V, max 4.1 V, max 5 W), used for the alarm evaluations. -/
def cfgB : poweralarmconfig :=
  { manualswitch := false, ir := 1/10, minvoltage := 19/5, maxvoltage := 41/10,
    maxpower := 5 }

/-- Manual-switch-mode sample configuration for the debounce evaluations. -/
def cfgM : poweralarmconfig :=
  { manualswitch := true, ir := 1/10, minvoltage := 3, maxvoltage := 5,
    maxpower := 100 }

/-- Claim C1's failing scenario: an automatic-mode discharge session of five
readings 20 s apart, capacity dropping 80% to 70%, constant discharge power
-108 W (so the accumulated energy is exactly -3 Wh), ended by shutdown. -/
def c1inputs : List (Bool × power_reading) :=
  [(false, mkr 0 false 4 4 (-27) 80), (false, mkr 20 false 4 4 (-27) 78),
   (false, mkr 40 false 4 4 (-27) 76), (false, mkr 60 false 4 4 (-27) 74),
   (false, mkr 80 false 4 4 (-27) 70), (true, mkr 100 false 4 4 (-27) 69)]

/-- A reading out of range only through low voltage while the status says
charging but the cell current is negative (automatic mode). -/
def c2bad : power_reading := mkr 0 true 3 (31/10) (-1/10) 50

/-- The sixth reading of claim C4's scenario: it arrives after a 600 s gap
and so triggers a gap flush. -/
def c4r6 : power_reading := mkr 620 false 4 4 (-1) 50

/-- Claim C4's scenario: five discharge readings 5 s apart followed by
`c4r6` after a 600 s gap; no exit flag anywhere. -/
def c4inputs : List (Bool × power_reading) :=
  [(false, mkr 0 false 4 4 (-1) 50), (false, mkr 5 false 4 4 (-1) 50),
   (false, mkr 10 false 4 4 (-1) 50), (false, mkr 15 false 4 4 (-1) 50),
   (false, mkr 20 false 4 4 (-1) 50), (false, c4r6)]

/-- Claim C5's scenario: five discharge readings 5 s apart; the sixth
reading (time 25) arrives with the exit flag set and triggers the final
flush. -/
def c5inputs : List (Bool × power_reading) :=
  [(false, mkr 0 false 4 4 (-1) 50), (false, mkr 5 false 4 4 (-1) 50),
   (false, mkr 10 false 4 4 (-1) 50), (false, mkr 15 false 4 4 (-1) 50),
   (false, mkr 20 false 4 4 (-1) 50), (true, mkr 25 false 4 4 (-1) 50)]

/-- Claim C7's scenario (manual-switch mode): voltages 4, 4, 3.8, 3.8, 3.8,
then a manual flip to charging on the sixth reading.  The last buffered
reading (3.8 V, time 20) differs by 0.2 V from the reading 15 s earlier
(4 V, time 5), yet the code's reference is the third-from-last reading
(3.8 V, time 10), so nothing is trimmed. -/
def c7inputs : List (Bool × power_reading) :=
  [(false, mkr 0 false 4 4 (-1) (-1)), (false, mkr 5 false 4 4 (-1) (-1)),
   (false, mkr 10 false (19/5) (19/5) (-1) (-1)),
   (false, mkr 15 false (19/5) (19/5) (-1) (-1)),
   (false, mkr 20 false (19/5) (19/5) (-1) (-1)),
   (false, mkr 25 true (19/5) (19/5) (-1) (-1))]

/-- Last buffered reading of the concrete gap-flush state `c6st`. -/
def c6last : power_reading := mkr 0 false 4 4 (-1) 50

/-- A mid-session state with five buffered discharge readings, last at
time 0, for the gap-clamp witness. -/
def c6st : LoopState :=
  { readings := [mkr (-80) false 4 4 (-1) 54, mkr (-60) false 4 4 (-1) 53,
      mkr (-40) false 4 4 (-1) 52, mkr (-20) false 4 4 (-1) 51, c6last],
    maxW := -4, Wh := -2, mAh := -500, rWh := 0, otimes := 0,
    first := false, pcharging := false }

/-- A charging reading that flips the polarity of a discharge session. -/
def c4wraw : power_reading := mkr 10 true 4 4 1 50

/-- A one-reading discharge session state, for the flip-flush witnesses. -/
def c4wst : LoopState :=
  { readings := [mkr 0 false 4 4 (-1) 50], maxW := -4, Wh := 0, mAh := 0,
    rWh := 0, otimes := 0, first := false, pcharging := false }

/-- A four-reading session state with non-zero running sums, realising the
short-session scenario of claim C8. -/
def c8st : LoopState :=
  { readings := [mkr 0 false 4 4 (-1) 50, mkr 5 false 4 4 (-1) 50,
      mkr 10 false 4 4 (-1) 50, mkr 15 false 4 4 (-1) 50],
    maxW := -4, Wh := -2, mAh := -500, rWh := 1, otimes := 3,
    first := false, pcharging := false }

/-- A reading breaching the low-voltage limit of `cfgA` while discharging. -/
def c10bad : power_reading := mkr 0 false 2 2 (-1) 50

/-- A reading inside every limit of `cfgA`. -/
def c10good : power_reading := mkr 0 false 4 4 (-1) 50


variable {cfg : poweralarmconfig} {maxvd : ℚ} {r raw lastr : power_reading}
variable {te : Bool} {st : LoopState}

@[simp] lemma tagreading_time : (tagreading cfg maxvd r).time = r.time := rfl

@[simp] lemma tagreading_charging : (tagreading cfg maxvd r).charging = r.charging := rfl

@[simp] lemma tagreading_voltage : (tagreading cfg maxvd r).voltage = r.voltage := rfl

@[simp] lemma tagreading_E : (tagreading cfg maxvd r).E = r.E := rfl

@[simp] lemma tagreading_current : (tagreading cfg maxvd r).current = r.current := rfl

@[simp] lemma tagreading_capacity : (tagreading cfg maxvd r).capacity = r.capacity := rfl

@[simp] lemma tagreading_outofrange :
    (tagreading cfg maxvd r).outofrange = creading_outofrange cfg maxvd r := rfl

@[simp] lemma tagreading_power : (tagreading cfg maxvd r).power = r.power := rfl

lemma checkstep_first (cfg : poweralarmconfig) (maxvd : ℚ) (te : Bool)
    (raw : power_reading) (st : LoopState) (hf : st.first = true) :
    checkstep cfg maxvd te raw st =
      ⟨pushreading { st with first := false } (tagreading cfg maxvd raw), none,
       alarmsound cfg maxvd (tagreading cfg maxvd raw), false, false⟩ := by
  simp [checkstep, hf]

lemma checkstep_nolast (cfg : poweralarmconfig) (maxvd : ℚ) (te : Bool)
    (raw : power_reading) (st : LoopState) (hf : st.first = false)
    (hl : st.readings.getLast? = none) :
    checkstep cfg maxvd te raw st =
      ⟨pushreading st (tagreading cfg maxvd raw), none,
       alarmsound cfg maxvd (tagreading cfg maxvd raw), false, false⟩ := by
  simp [checkstep, hf, hl]

lemma checkstep_flush_exit (cfg : poweralarmconfig) (maxvd : ℚ)
    (raw : power_reading) (st : LoopState) (lastr : power_reading)
    (hf : st.first = false) (hl : st.readings.getLast? = some lastr)
    (hg : flushcond cfg maxvd true raw st lastr = true) :
    checkstep cfg maxvd true raw st =
      ⟨clearedstate st,
       flushreport cfg st (integWh st lastr (clampdt lastr.time raw.time))
         (integmAh st lastr (clampdt lastr.time raw.time))
         (integrWh cfg st lastr (clampdt lastr.time raw.time)),
       alarmsound cfg maxvd (tagreading cfg maxvd raw), true, true⟩ := by
  simp [checkstep, hf, hl, hg]

lemma checkstep_flush_cont (cfg : poweralarmconfig) (maxvd : ℚ)
    (raw : power_reading) (st : LoopState) (lastr : power_reading)
    (hf : st.first = false) (hl : st.readings.getLast? = some lastr)
    (hg : flushcond cfg maxvd false raw st lastr = true) :
    checkstep cfg maxvd false raw st =
      ⟨pushreading (clearedstate st) (tagreading cfg maxvd raw),
       flushreport cfg st (integWh st lastr (clampdt lastr.time raw.time))
         (integmAh st lastr (clampdt lastr.time raw.time))
         (integrWh cfg st lastr (clampdt lastr.time raw.time)),
       alarmsound cfg maxvd (tagreading cfg maxvd raw), true, false⟩ := by
  simp [checkstep, hf, hl, hg]

lemma checkstep_noflush (cfg : poweralarmconfig) (maxvd : ℚ) (te : Bool)
    (raw : power_reading) (st : LoopState) (lastr : power_reading)
    (hf : st.first = false) (hl : st.readings.getLast? = some lastr)
    (hg : flushcond cfg maxvd te raw st lastr = false) :
    checkstep cfg maxvd te raw st =
      ⟨pushreading
        { st with Wh := integWh st lastr (clampdt lastr.time raw.time),
                  mAh := integmAh st lastr (clampdt lastr.time raw.time),
                  rWh := integrWh cfg st lastr (clampdt lastr.time raw.time) }
        (tagreading cfg maxvd raw),
       none, alarmsound cfg maxvd (tagreading cfg maxvd raw), false, false⟩ := by
  simp [checkstep, hf, hl, hg]

lemma checkstep_alarm (cfg : poweralarmconfig) (maxvd : ℚ) (te : Bool)
    (raw : power_reading) (st : LoopState) :
    (checkstep cfg maxvd te raw st).alarm =
      alarmsound cfg maxvd (tagreading cfg maxvd raw) := by
  by_cases hf : st.first = true
  · rw [checkstep_first cfg maxvd te raw st hf]
  · rw [Bool.not_eq_true] at hf
    rcases hl : st.readings.getLast? with _ | lastr
    · rw [checkstep_nolast cfg maxvd te raw st hf hl]
    · by_cases hg : flushcond cfg maxvd te raw st lastr = true
      · cases te
        · rw [checkstep_flush_cont cfg maxvd raw st lastr hf hl hg]
        · rw [checkstep_flush_exit cfg maxvd raw st lastr hf hl hg]
      · rw [Bool.not_eq_true] at hg
        rw [checkstep_noflush cfg maxvd te raw st lastr hf hl hg]

lemma getD_append_length (ys rest : List power_reading) (d : power_reading) :
    (ys ++ rest).getD ys.length d = rest.getD 0 d := by
  induction ys with
  | nil => simp
  | cons y ys ih => simpa [List.getD_cons_succ] using ih

lemma poplast_concat (p : ℚ) (xs : List power_reading) (x : power_reading)
    (ot : Int) :
    poplast p (xs ++ [x], ot) =
      if |x.voltage - p| ≥ 1/10 then
        (xs, ot - (if x.outofrange then 1 else 0))
      else (xs ++ [x], ot) := by
  simp only [poplast, List.getLast?_concat, List.dropLast_concat]

lemma mkreport_readings (cfg : poweralarmconfig) (rs : List power_reading)
    (ot : Int) (pch : Bool) (maxW Wh mAh rWh : ℚ) :
    (mkreport cfg rs ot pch maxW Wh mAh rWh).readings = rs := rfl

lemma mkreport_Wh (cfg : poweralarmconfig) (rs : List power_reading)
    (ot : Int) (pch : Bool) (maxW Wh mAh rWh : ℚ) :
    (mkreport cfg rs ot pch maxW Wh mAh rWh).Wh = Wh := rfl

lemma poplast_fst (p : ℚ) (x : List power_reading × Int) :
    (poplast p x).1 = x.1 ∨ (poplast p x).1 = x.1.dropLast := by
  rcases x with ⟨rs, ot⟩
  simp only [poplast]
  split
  · left; rfl
  · split_ifs <;> simp

lemma debounce_fst (rs : List power_reading) (ot : Int) :
    (debounce rs ot).1 = rs ∨ (debounce rs ot).1 = rs.dropLast ∨
    (debounce rs ot).1 = rs.dropLast.dropLast := by
  unfold debounce
  rcases poplast_fst (rs.getD (rs.length - 3) rdflt).voltage (rs, ot) with h1 | h1 <;>
    rcases poplast_fst (rs.getD (rs.length - 3) rdflt).voltage
      (poplast (rs.getD (rs.length - 3) rdflt).voltage (rs, ot)) with h2 | h2 <;>
    rw [h2, h1] <;> tauto

lemma flushreport_readings (cfg : poweralarmconfig) (st : LoopState)
    (Wh1 mAh1 rWh1 : ℚ) (rp : SessionReport)
    (h : flushreport cfg st Wh1 mAh1 rWh1 = some rp) :
    rp.readings = st.readings ∨ rp.readings = st.readings.dropLast ∨
    rp.readings = st.readings.dropLast.dropLast := by
  unfold flushreport at h
  split_ifs at h with hlen hm
  · rw [Option.some_inj] at h
    rw [← h, mkreport_readings]
    exact debounce_fst st.readings st.otimes
  · rw [Option.some_inj] at h
    rw [← h, mkreport_readings]
    left; rfl

lemma flushreport_Wh (cfg : poweralarmconfig) (st : LoopState)
    (Wh1 mAh1 rWh1 : ℚ) (rp : SessionReport)
    (h : flushreport cfg st Wh1 mAh1 rWh1 = some rp) :
    rp.Wh = Wh1 := by
  unfold flushreport at h
  split_ifs at h with hlen hm
  · rw [Option.some_inj] at h
    rw [← h, mkreport_Wh]
  · rw [Option.some_inj] at h
    rw [← h, mkreport_Wh]

lemma flushreport_short (cfg : poweralarmconfig) (st : LoopState)
    (Wh1 mAh1 rWh1 : ℚ) (h : st.readings.length < 5) :
    flushreport cfg st Wh1 mAh1 rWh1 = none := by
  unfold flushreport
  rw [if_neg (by omega)]

/-- C1: evaluation of the code at the claim's own example.  An
automatic-mode discharge session whose capacity drops from 80% to 70% over a
measured net energy of -3 Wh (`c1inputs`) is flushed with
`dcapacity = -10` and `Wh = -3`, but the full-capacity estimate is *not*
computed (`esfull = none`), because line 535 guards the estimate with the
signed test `dcapacity >= 5` instead of `|dcapacity| >= 5`; the discharging
branch of line 539 is unreachable for a real discharge session. -/
theorem C1_capacity_estimate_eval :
    ((checkrun cfgA 5 c1inputs initState).2.map
      fun rp => (rp.dcapacity, rp.Wh, rp.esfull)) = [(some (-10), -3, none)] := by
  norm_num [checkrun, checkstep, c1inputs, mkr, cfgA, initState, tagreading,
    creading_outofrange, alarmsound, actuald, power_reading.power, clampdt,
    check_interval, flushcond, flushreport, mkreport, integWh, integmAh,
    integrWh, clearedstate, pushreading, ratTrunc, rdflt, abs_eq_max_neg,
    max_def]

/-- C2, counterexample: the reading `c2bad` (automatic mode, status
`Charging`, cell current negative, low voltage its only out-of-range cause)
makes the bell sound, although the spec's definition of "actually
discharging" (`!charging` in automatic mode) is false for it, so the claim's
"exactly when" fails at this input. -/
theorem C2_counterexample :
    onlyLowVoltage cfgB 5 c2bad ∧
    alarmsound cfgB 5 (tagreading cfgB 5 c2bad) = true ∧
    spec_actually_discharging cfgB c2bad = false := by
  norm_num [onlyLowVoltage, spec_actually_discharging, alarmsound, actuald,
    tagreading, creading_outofrange, c2bad, mkr, cfgB, power_reading.power,
    abs_eq_max_neg, max_def]

/-- C2, amended: for every reading whose only out-of-range cause is a
low-voltage breach, the alarm sounds exactly when
`!charging || (automatic mode && current < 0)` holds -- that is, `!charging`
alone in manual-switch mode, and `!charging` *or* negative current in
automatic mode (line 484); the claim had the two modes swapped. -/
theorem C2_low_voltage_alarm (cfg : poweralarmconfig) (maxvd : ℚ) (te : Bool)
    (raw : power_reading) (st : LoopState) (h : onlyLowVoltage cfg maxvd raw) :
    (checkstep cfg maxvd te raw st).alarm =
      (!raw.charging || (!cfg.manualswitch && decide (raw.current < 0))) := by
  obtain ⟨h1, h2, h3, h4⟩ := h
  rw [checkstep_alarm]
  simp [alarmsound, creading_outofrange, actuald, h1, h2, h3, h4]

/-- C2, witness: the amended theorem applied to the concrete reading
`c2bad` under `cfgB`. -/
theorem C2_low_voltage_alarm_witness :
    (checkstep cfgB 5 false c2bad initState).alarm =
      (!c2bad.charging || (!cfgB.manualswitch && decide (c2bad.current < 0))) :=
  C2_low_voltage_alarm cfgB 5 false c2bad initState
    (by norm_num [onlyLowVoltage, c2bad, mkr, cfgB, power_reading.power,
      abs_eq_max_neg, max_def])

/-- C3, counterexample: at `u = 3.7 V`, `i = -0.5 A`, `ir = 0.1 Ω` (not
manual-charging), the code computes `E = u + (-i·ir) = 3.75 V` while the
spec's formula `E = u − (−i·ir)` gives `3.65 V`; the two differ. -/
theorem C3_counterexample :
    readE false false (37/10) (-1/2) (1/10) = 15/4 ∧
    spec_effective_voltage false false (37/10) (-1/2) (1/10) = 73/20 ∧
    readE false false (37/10) (-1/2) (1/10) ≠
      spec_effective_voltage false false (37/10) (-1/2) (1/10) := by
  norm_num [readE, spec_effective_voltage]

/-- C3, amended: for every sample produced by `read()`, the effective
voltage equals `voltage` in manual-switch mode while charging, and otherwise
`voltage - current × internal_resistance` (equivalently
`voltage + (−current) × internal_resistance`, lines 251-253) -- the drop is
*added*, not subtracted, relative to the claim's formula. -/
theorem C3_effective_voltage (m c f : Bool) (ir u i : ℚ) (cp t : Int) :
    (power_status_reader.read m ir c f u i cp t).E =
      if m && c then u else u - i * ir := by
  simp only [power_status_reader.read, readE]
  split_ifs <;> ring

/-- C4, counterexample: in the gap-flush run `c4inputs` (600 s gap before
the sixth reading, no flip, no exit) a report is flushed, yet the new
session's buffer is *not* empty -- it is seeded with the gap-triggering
reading `c4r6` (line 605 pushes the just-arrived reading unconditionally),
contradicting the claim's "starts empty when the flush was caused by ... a
detected gap". -/
theorem C4_counterexample :
    (checkrun cfgA 5 c4inputs initState).1.readings = [c4r6] ∧
    (checkrun cfgA 5 c4inputs initState).2.length = 1 := by
  norm_num [checkrun, checkstep, c4inputs, c4r6, mkr, cfgA, initState,
    tagreading, creading_outofrange, alarmsound, actuald, power_reading.power,
    clampdt, check_interval, flushcond, flushreport, mkreport, integWh,
    integmAh, integrWh, clearedstate, pushreading, ratTrunc, rdflt,
    abs_eq_max_neg, max_def]

/-- C4, amended: whenever a flush fires, the new session's buffer is seeded
with exactly the triggering reading for *every* non-shutdown flush cause
(flip, size cap, or gap alike), and is empty after the shutdown flush (the
loop exits); the just-arrived reading is excluded from the flushed buffer in
every case (the report's buffer is the pre-existing buffer, at most
debounce-trimmed). -/
theorem C4_flush_reseed (cfg : poweralarmconfig) (maxvd : ℚ) (te : Bool)
    (raw : power_reading) (st : LoopState) (lastr : power_reading)
    (hf : st.first = false) (hl : st.readings.getLast? = some lastr)
    (hg : flushcond cfg maxvd te raw st lastr = true) :
    ((checkstep cfg maxvd te raw st).state.readings =
      if te = true then [] else [tagreading cfg maxvd raw]) ∧
    ∀ rp, (checkstep cfg maxvd te raw st).report = some rp →
      rp.readings = st.readings ∨ rp.readings = st.readings.dropLast ∨
      rp.readings = st.readings.dropLast.dropLast := by
  cases te
  · rw [checkstep_flush_cont cfg maxvd raw st lastr hf hl hg]
    constructor
    · simp [pushreading, clearedstate]
    · intro rp h
      exact flushreport_readings _ _ _ _ _ _ h
  · rw [checkstep_flush_exit cfg maxvd raw st lastr hf hl hg]
    refine ⟨by simp [clearedstate], ?_⟩
    intro rp h
    exact flushreport_readings _ _ _ _ _ _ h

/-- C4, witness: the amended theorem applied to a concrete flip-caused
flush (one-reading discharge session `c4wst`, charging reading `c4wraw`). -/
theorem C4_flush_reseed_witness :
    ((checkstep cfgA 5 false c4wraw c4wst).state.readings =
      if false = true then [] else [tagreading cfgA 5 c4wraw]) ∧
    ∀ rp, (checkstep cfgA 5 false c4wraw c4wst).report = some rp →
      rp.readings = c4wst.readings ∨ rp.readings = c4wst.readings.dropLast ∨
      rp.readings = c4wst.readings.dropLast.dropLast :=
  C4_flush_reseed cfgA 5 false c4wraw c4wst (mkr 0 false 4 4 (-1) 50) rfl rfl
    (by decide)

/-- C5, counterexample: in the shutdown run `c5inputs` the final flush's
report covers exactly the five previously buffered readings (times 0..20);
the triggering reading (time 25) is *not* in the flushed buffer -- `return`
at line 595 precedes the `push_back` of line 605 -- contradicting the
claim's "include the triggering reading". -/
theorem C5_counterexample :
    ((checkrun cfgA 5 c5inputs initState).2.map
      fun rp => rp.readings.map power_reading.time) = [[0, 5, 10, 15, 20]] ∧
    (checkrun cfgA 5 c5inputs initState).1.readings = [] := by
  norm_num [checkrun, checkstep, c5inputs, mkr, cfgA, initState,
    tagreading, creading_outofrange, alarmsound, actuald, power_reading.power,
    clampdt, check_interval, flushcond, flushreport, mkreport, integWh,
    integmAh, integrWh, clearedstate, pushreading, ratTrunc, rdflt,
    abs_eq_max_neg, max_def]

/-- C5, amended: when the external shutdown flag causes the final flush,
the loop exits with an empty buffer and the flushed report is computed from
the pre-existing buffer only (at most debounce-trimmed), so the reading
ingested on that iteration is excluded from the flushed session buffer and
statistics. -/
theorem C5_shutdown_flush (cfg : poweralarmconfig) (maxvd : ℚ)
    (raw : power_reading) (st : LoopState) (lastr : power_reading)
    (hf : st.first = false) (hl : st.readings.getLast? = some lastr) :
    (checkstep cfg maxvd true raw st).exited = true ∧
    (checkstep cfg maxvd true raw st).state.readings = [] ∧
    ∀ rp, (checkstep cfg maxvd true raw st).report = some rp →
      rp.readings = st.readings ∨ rp.readings = st.readings.dropLast ∨
      rp.readings = st.readings.dropLast.dropLast := by
  have hg : flushcond cfg maxvd true raw st lastr = true := by
    simp [flushcond]
  rw [checkstep_flush_exit cfg maxvd raw st lastr hf hl hg]
  refine ⟨rfl, rfl, ?_⟩
  intro rp h
  exact flushreport_readings _ _ _ _ _ _ h

/-- C5, witness: the amended theorem applied to the concrete one-reading
session `c4wst` with the exit flag set. -/
theorem C5_shutdown_flush_witness :
    (checkstep cfgA 5 true c4wraw c4wst).exited = true ∧
    (checkstep cfgA 5 true c4wraw c4wst).state.readings = [] ∧
    ∀ rp, (checkstep cfgA 5 true c4wraw c4wst).report = some rp →
      rp.readings = c4wst.readings ∨ rp.readings = c4wst.readings.dropLast ∨
      rp.readings = c4wst.readings.dropLast.dropLast :=
  C5_shutdown_flush cfgA 5 c4wraw c4wst (mkr 0 false 4 4 (-1) 50) rfl rfl

/-- C6: for two consecutive readings separated by a real 600 s gap (with
the fixed 5 s poll interval), the elapsed time used in the energy
integration is clamped to `check_interval * 5 = 25` seconds, that step
forces a flush, and any report flushed on that step integrated the last
buffered reading's power over exactly 25 s. -/
theorem C6_gap_clamp (cfg : poweralarmconfig) (maxvd : ℚ) (te : Bool)
    (raw : power_reading) (st : LoopState) (lastr : power_reading)
    (hf : st.first = false) (hl : st.readings.getLast? = some lastr)
    (hgap : raw.time - lastr.time = 600) :
    clampdt lastr.time raw.time = check_interval * 5 ∧
    clampdt lastr.time raw.time ≤ 25 ∧
    (checkstep cfg maxvd te raw st).flushed = true ∧
    ∀ rp, (checkstep cfg maxvd te raw st).report = some rp →
      rp.Wh = st.Wh + lastr.power * 25 / 3600 := by
  have hdt : clampdt lastr.time raw.time = 25 := by
    simp only [clampdt, check_interval, hgap]
    norm_num
  have hci : check_interval * 5 = 25 := by norm_num [check_interval]
  have hg : flushcond cfg maxvd te raw st lastr = true := by
    simp [flushcond, tagreading_time, hdt, hci]
  have hWh : ∀ rp, (checkstep cfg maxvd te raw st).report = some rp →
      rp.Wh = st.Wh + lastr.power * 25 / 3600 := by
    intro rp h
    cases te
    · rw [checkstep_flush_cont cfg maxvd raw st lastr hf hl hg] at h
      have := flushreport_Wh _ _ _ _ _ _ h
      rw [this, integWh, hdt]
      norm_num
    · rw [checkstep_flush_exit cfg maxvd raw st lastr hf hl hg] at h
      have := flushreport_Wh _ _ _ _ _ _ h
      rw [this, integWh, hdt]
      norm_num
  refine ⟨by rw [hdt, hci], by rw [hdt], ?_, hWh⟩
  cases te
  · rw [checkstep_flush_cont cfg maxvd raw st lastr hf hl hg]
  · rw [checkstep_flush_exit cfg maxvd raw st lastr hf hl hg]

/-- C6, witness: the gap-clamp theorem applied to the concrete five-reading
session `c6st` whose last reading is 600 s older than the incoming one. -/
theorem C6_gap_clamp_witness :
    clampdt c6last.time (mkr 600 false 4 4 (-1) 48).time = check_interval * 5 ∧
    clampdt c6last.time (mkr 600 false 4 4 (-1) 48).time ≤ 25 ∧
    (checkstep cfgA 5 false (mkr 600 false 4 4 (-1) 48) c6st).flushed = true ∧
    ∀ rp, (checkstep cfgA 5 false (mkr 600 false 4 4 (-1) 48) c6st).report = some rp →
      rp.Wh = c6st.Wh + c6last.power * 25 / 3600 :=
  C6_gap_clamp cfgA 5 false (mkr 600 false 4 4 (-1) 48) c6st c6last rfl rfl
    (by decide)

/-- C7, counterexample: at the flip-flush of the manual-mode run
`c7inputs`, the last buffered reading's voltage (3.8 V) differs by 0.2 V
(≥ 0.1 V) from the reading 15 s (3 samples) before it (4 V), yet the
flushed report retains all five readings and the out-of-range percentage is
untouched -- nothing is trimmed, because the code's reference reading is
`readings[size-3]` (10 s before the last buffered reading), not the reading
3 samples earlier. -/
theorem C7_counterexample :
    |(19:ℚ)/5 - 4| ≥ 1/10 ∧
    ((checkrun cfgM 5 c7inputs initState).2.map
      fun rp => (rp.readings.map power_reading.voltage, rp.poutrange)) =
      [([4, 4, 19/5, 19/5, 19/5], 0)] := by
  norm_num [checkrun, checkstep, c7inputs, mkr, cfgM, initState,
    tagreading, creading_outofrange, alarmsound, actuald, power_reading.power,
    clampdt, check_interval, flushcond, flushreport, debounce, poplast,
    mkreport, integWh, integmAh, integrWh, clearedstate, pushreading,
    ratTrunc, rdflt, abs_eq_max_neg, max_def]

/-- C7, amended: the debounce trim compares against the *third-from-last*
buffered reading `a` (2 samples ≈ 10 s before the last buffered reading,
i.e. 15 s before the flush-triggering reading): the last reading `c` is
removed exactly when `|c.voltage - a.voltage| ≥ 0.1`, and then the new last
reading `b` is removed exactly when `|b.voltage - a.voltage| ≥ 0.1` as well;
the out-of-range counter is decremented once for each removed reading that
had been counted. -/
theorem C7_debounce_trim (ys : List power_reading) (a b c : power_reading)
    (ot : Int) :
    debounce (ys ++ [a, b, c]) ot =
      if |c.voltage - a.voltage| ≥ 1/10 then
        if |b.voltage - a.voltage| ≥ 1/10 then
          (ys ++ [a], ot - (if c.outofrange then 1 else 0)
                        - (if b.outofrange then 1 else 0))
        else (ys ++ [a, b], ot - (if c.outofrange then 1 else 0))
      else (ys ++ [a, b, c], ot) := by
  have hlen : (ys ++ [a, b, c]).length - 3 = ys.length := by simp
  have e1 : ys ++ [a, b, c] = (ys ++ [a, b]) ++ [c] := by simp
  have e2 : ys ++ [a, b] = (ys ++ [a]) ++ [b] := by simp
  unfold debounce
  rw [hlen, getD_append_length]
  simp only [List.getD_cons_zero]
  rw [e1, poplast_concat]
  by_cases h1 : |c.voltage - a.voltage| ≥ 1/10
  · rw [if_pos h1, if_pos h1, e2, poplast_concat]
  · rw [if_neg h1, if_neg h1, poplast_concat, if_neg h1]

/-- C8: whenever a flush fires while the buffer holds fewer than 5
readings, no report is produced and the energy sums are reset to zero; on a
shutdown flush the whole state is the cleared state (all sums zero, empty
buffer), and otherwise the state is the cleared state with only the fresh
triggering reading pushed.  The witness realises the claim's particular
scenario: 4 buffered readings, then shutdown. -/
theorem C8_short_session (cfg : poweralarmconfig) (maxvd : ℚ) (te : Bool)
    (raw : power_reading) (st : LoopState) (lastr : power_reading)
    (hf : st.first = false) (hl : st.readings.getLast? = some lastr)
    (hg : flushcond cfg maxvd te raw st lastr = true)
    (hshort : st.readings.length < 5) :
    (checkstep cfg maxvd te raw st).report = none ∧
    (checkstep cfg maxvd te raw st).state.Wh = 0 ∧
    (checkstep cfg maxvd te raw st).state.mAh = 0 ∧
    (checkstep cfg maxvd te raw st).state.rWh = 0 ∧
    (te = true → (checkstep cfg maxvd te raw st).state = clearedstate st) ∧
    (te = false → (checkstep cfg maxvd te raw st).state =
      pushreading (clearedstate st) (tagreading cfg maxvd raw)) := by
  cases te
  · rw [checkstep_flush_cont cfg maxvd raw st lastr hf hl hg]
    refine ⟨flushreport_short _ _ _ _ _ hshort, ?_, ?_, ?_, ?_, ?_⟩ <;>
      simp [pushreading, clearedstate]
  · rw [checkstep_flush_exit cfg maxvd raw st lastr hf hl hg]
    refine ⟨flushreport_short _ _ _ _ _ hshort, ?_, ?_, ?_, ?_, ?_⟩ <;>
      simp [clearedstate]

/-- C8, witness: the short-session theorem applied to the concrete
four-reading session `c8st` (non-zero running sums) flushed by shutdown: no
report, and every sum reset to zero. -/
theorem C8_short_session_witness :
    (checkstep cfgA 5 true (mkr 20 false 4 4 (-1) 50) c8st).report = none ∧
    (checkstep cfgA 5 true (mkr 20 false 4 4 (-1) 50) c8st).state.Wh = 0 ∧
    (checkstep cfgA 5 true (mkr 20 false 4 4 (-1) 50) c8st).state.mAh = 0 ∧
    (checkstep cfgA 5 true (mkr 20 false 4 4 (-1) 50) c8st).state.rWh = 0 ∧
    (true = true → (checkstep cfgA 5 true (mkr 20 false 4 4 (-1) 50) c8st).state =
      clearedstate c8st) ∧
    (true = false → (checkstep cfgA 5 true (mkr 20 false 4 4 (-1) 50) c8st).state =
      pushreading (clearedstate c8st) (tagreading cfgA 5 (mkr 20 false 4 4 (-1) 50))) :=
  C8_short_session cfgA 5 true (mkr 20 false 4 4 (-1) 50) c8st
    (mkr 15 false 4 4 (-1) 50) rfl rfl (by decide) (by decide)

/-- C9, counterexample: feeding two readings whose timestamps go *backwards*
(100 then 0) with a non-zero internal-resistance drop makes the accumulated
`rWh` negative (`-1/72`), because the elapsed time of lines 493-494 is
clamped above at 25 s but not below at 0; so `rWh ≥ 0` does not hold for
every input sequence. -/
theorem C9_counterexample :
    (checkrun cfgA 5 [(false, mkr 100 false 4 (9/2) (-1) 50),
      (false, mkr 0 false 4 (9/2) (-1) 50)] initState).1.rWh < 0 := by
  norm_num [checkrun, checkstep, mkr, cfgA, initState, tagreading,
    creading_outofrange, alarmsound, actuald, power_reading.power, clampdt,
    check_interval, flushcond, flushreport, mkreport, integWh, integmAh,
    integrWh, clearedstate, pushreading, ratTrunc, rdflt, abs_eq_max_neg,
    max_def]

/-- C9, amended: one loop iteration preserves non-negativity of the
accumulated `rWh` provided the incoming reading's timestamp is not earlier
than the last buffered one's; hence, for input sequences with non-decreasing
timestamps, `rWh ≥ 0` holds at every step of every session. -/
theorem C9_rWh_nonneg (cfg : poweralarmconfig) (maxvd : ℚ) (te : Bool)
    (raw : power_reading) (st : LoopState)
    (hpos : 0 ≤ st.rWh)
    (hmono : ∀ l, st.readings.getLast? = some l → l.time ≤ raw.time) :
    0 ≤ (checkstep cfg maxvd te raw st).state.rWh := by
  by_cases hf : st.first = true
  · rw [checkstep_first cfg maxvd te raw st hf]
    simpa [pushreading] using hpos
  · rw [Bool.not_eq_true] at hf
    rcases hl : st.readings.getLast? with _ | lastr
    · rw [checkstep_nolast cfg maxvd te raw st hf hl]
      simpa [pushreading] using hpos
    · have hdt : 0 ≤ clampdt lastr.time raw.time := by
        have := hmono lastr hl
        simp only [clampdt, check_interval]
        split_ifs with h <;> omega
      have hint : 0 ≤ integrWh cfg st lastr (clampdt lastr.time raw.time) := by
        unfold integrWh
        split_ifs
        · have hc : (0:ℚ) ≤ ((clampdt lastr.time raw.time : Int) : ℚ) := by
            exact_mod_cast hdt
          have habs : (0:ℚ) ≤ |(lastr.E - lastr.voltage) * lastr.current| :=
            abs_nonneg _
          have : (0:ℚ) ≤ |(lastr.E - lastr.voltage) * lastr.current| *
              ((clampdt lastr.time raw.time : Int) : ℚ) / 3600 := by
            apply div_nonneg (mul_nonneg habs hc)
            norm_num
          linarith
        · exact hpos
      by_cases hg : flushcond cfg maxvd te raw st lastr = true
      · cases te
        · rw [checkstep_flush_cont cfg maxvd raw st lastr hf hl hg]
          simp [pushreading, clearedstate]
        · rw [checkstep_flush_exit cfg maxvd raw st lastr hf hl hg]
          simp [clearedstate]
      · rw [Bool.not_eq_true] at hg
        rw [checkstep_noflush cfg maxvd te raw st lastr hf hl hg]
        simpa [pushreading] using hint

/-- C9, witness: the preservation theorem applied to the initial state and
a concrete first reading. -/
theorem C9_rWh_nonneg_witness :
    0 ≤ (checkstep cfgA 5 false (mkr 5 false 4 4 (-1) 50) initState).state.rWh :=
  C9_rWh_nonneg cfgA 5 false (mkr 5 false 4 4 (-1) 50) initState (le_refl 0)
    (fun _ h => nomatch h)

/-- C10: on every loop iteration, if the bell is emitted for the ingested
reading then that reading's out-of-range tag is true; and a reading within
all configured limits (`voltage ≥ min_voltage`, `E ≤ max_voltage`,
`voltage ≤ max_voltage_design`, `|power| ≤ max_power`) never produces an
alarm sound. -/
theorem C10_alarm_only_out_of_range (cfg : poweralarmconfig) (maxvd : ℚ)
    (te : Bool) (raw : power_reading) (st : LoopState) :
    ((checkstep cfg maxvd te raw st).alarm = true →
      (tagreading cfg maxvd raw).outofrange = true) ∧
    (cfg.minvoltage ≤ raw.voltage → raw.E ≤ cfg.maxvoltage →
      raw.voltage ≤ maxvd → |raw.power| ≤ cfg.maxpower →
      (checkstep cfg maxvd te raw st).alarm = false) := by
  rw [checkstep_alarm]
  constructor
  · intro h
    unfold alarmsound at h
    exact ((Bool.and_eq_true _ _).mp h).1
  · intro h1 h2 h3 h4
    have n1 : ¬ (raw.voltage < cfg.minvoltage) := not_lt.mpr h1
    have n2 : ¬ (cfg.maxvoltage < raw.E) := not_lt.mpr h2
    have n3 : ¬ (maxvd < raw.voltage) := not_lt.mpr h3
    have n4 : ¬ (cfg.maxpower < |raw.power|) := not_lt.mpr h4
    simp [alarmsound, tagreading, creading_outofrange, n1, n2, n3, n4]

/-- C10, witness: the theorem applied to a concrete alarming low-voltage
reading (`c10bad`, whose tag is forced true) and to a concrete fully
in-range reading (`c10good`, which yields no alarm). -/
theorem C10_alarm_witness :
    (tagreading cfgA 5 c10bad).outofrange = true ∧
    (checkstep cfgA 5 false c10good initState).alarm = false :=
  ⟨(C10_alarm_only_out_of_range cfgA 5 false c10bad initState).1
      (by norm_num [checkstep_alarm, alarmsound, actuald, creading_outofrange,
        c10bad, mkr, cfgA, power_reading.power, abs_eq_max_neg, max_def]),
   (C10_alarm_only_out_of_range cfgA 5 false c10good initState).2
      (by norm_num [c10good, mkr, cfgA]) (by norm_num [c10good, mkr, cfgA])
      (by norm_num [c10good, mkr, cfgA])
      (by norm_num [c10good, mkr, cfgA, power_reading.power, abs_eq_max_neg,
        max_def])⟩

end SBVA
